import Mathlib

/-!
Shallow embedding of the `rapt` Home Assistant integration
(`custom_components/rapt`): the authenticated API client (`api.py`), the
polling/discovery coordinator (`coordinator.py`) and the sensor value
accessor (`sensor.py`).

Modelling conventions:
* wall-clock instants and durations are rationals (seconds);
* JSON scalar values are the inductive `JVal`; a device record is the
  structure `Device`, typed after the data model the integration relies on
  (an optional string `id`, scalar sensor fields, an optional `telemetry`
  list of sample objects);
* network I/O is passed in as data: each modelled operation receives the
  response (or the raised transport error) it would have observed, and
  returns the new state together with the result or the raised
  `RaptApiError` message;
* the Home Assistant base class `DataUpdateCoordinator` is external to the
  repository; the only pieces of it the code touches are modelled
  explicitly: `last_update_success` is the boolean that is true iff the
  last completed refresh succeeded, and `coordinator.data` (the held
  snapshot) is replaced by the framework only when `_async_update_data`
  returns without raising.
-/

deriving instance DecidableEq for Except

namespace Rapt

/-- Scalar JSON values as they appear in device records. -/
inductive JVal where
  | null : JVal
  | bool (b : Bool) : JVal
  | num (q : ℚ) : JVal
  | str (s : String) : JVal
deriving DecidableEq, Repr

/-- One device record from the remote API.  The integration depends only on
the optional string `id`, the scalar sensor fields, and the optional
`telemetry` list of sample objects (index 0 = most recent sample). -/
structure Device where
  id : Option String := none
  fields : List (String × JVal) := []
  telemetry : Option (List (List (String × JVal))) := none
deriving DecidableEq, Repr

/-- Truthiness of `device.get("id")` in Python: the key must be present and
the string non-empty (`if device_id:`). -/
def idTruthy : Option String → Bool
  | none => false
  | some s => !(s == "")

/-- The truthy id of a device record, if any. -/
def truthyId (d : Device) : Option String :=
  match d.id with
  | none => none
  | some s => if s = "" then none else some s

/-- Token-holding state of `RaptApiClient`: `_bearer_token` and
`_token_expires_at`.  Both start as `None`. -/
structure ClientState where
  bearerToken : Option String := none
  tokenExpiresAt : Option ℚ := none
deriving DecidableEq, Repr

/-- Decoded body of the token endpoint's 200 response: either not JSON, or a
JSON object with an optional `access_token` and an optional `expires_in`. -/
inductive AuthBody where
  | invalidJson : AuthBody
  | json (accessToken : Option String) (expiresIn : Option ℚ) : AuthBody
deriving DecidableEq, Repr

/-- What `authenticate` observes from the network: a transport failure
(`aiohttp.ClientError`, carrying its message) or an HTTP response with a
status, a decoded body and the raw text used in error messages. -/
inductive AuthObservation where
  | transportError (msg : String) : AuthObservation
  | response (status : ℕ) (body : AuthBody) (text : String) : AuthObservation
deriving DecidableEq, Repr

/-- Embedding of `RaptApiClient.authenticate` (api.py lines 36-89).  Returns
the client state after the call together with `.ok ()` on success or
`.error msg` for the raised `RaptApiError` message. -/
def authenticate (s : ClientState) (obs : AuthObservation) (now : ℚ) :
    ClientState × Except String Unit :=
  match obs with
  | .transportError msg => (s, .error ("Network error: " ++ msg))
  | .response status body _text =>
    if status = 400 then
      (s, .error "Authentication failed: Invalid username or API key")
    else if status = 401 then
      (s, .error "Authentication failed: Invalid username or API key")
    else if status ≠ 200 then
      (s, .error ("Authentication failed: HTTP " ++ toString status))
    else
      match body with
      | .invalidJson => (s, .error "Authentication failed: Invalid response format")
      | .json accessToken expiresIn =>
        match accessToken with
        | none => (s, .error "No access token received from API")
        | some tok =>
          let expiresInSeconds : ℚ := expiresIn.getD 2700
          ({ bearerToken := some tok, tokenExpiresAt := some (now + expiresInSeconds) },
           .ok ())

/-- Embedding of the condition in `RaptApiClient._ensure_authenticated`
(api.py lines 91-99): re-authenticate iff the token is missing, the expiry
is missing, or `now >= expiry`. -/
def needsAuth (s : ClientState) (now : ℚ) : Bool :=
  match s.bearerToken, s.tokenExpiresAt with
  | none, _ => true
  | _, none => true
  | some _, some e => decide (now ≥ e)

/-- Number of `authenticate` calls `_ensure_authenticated` performs: one when
`needsAuth`, none otherwise. -/
def ensureAuthenticatedCalls (s : ClientState) (now : ℚ) : ℕ :=
  if needsAuth s now then 1 else 0

/-- Sleep computed by the rate gate in `RaptApiClient._rate_limited_request`
(api.py lines 104-109): with a recorded last-request time `t` and current
time `now`, sleep `15 - (now - t)` seconds when the elapsed time is below
15 seconds, else do not sleep.  With no recorded last request, no sleep. -/
def rateLimitSleep (last : Option ℚ) (now : ℚ) : ℚ :=
  match last with
  | none => 0
  | some t => if now - t < 15 then 15 - (now - t) else 0

/-- Serialized executions of the rate-gate section (api.py lines 103-111).
`_rate_limit_lock` is held across the sleep, the stamp, authentication and
the request, so the gate sections of successive requests execute one after
another; `GateTrace last stamps` holds when `stamps` lists, in order, the
`_last_request_time` values stamped by those executions, starting from the
recorded value `last`.  A step enters the gate at some wall-clock instant
`arrive` no earlier than the previously recorded stamp (the clock is
monotone and the previous holder stamped before releasing the lock),
sleeps at least `rateLimitSleep last arrive`, and stamps the current time
`stamp` after the sleep. -/
inductive GateTrace : Option ℚ → List ℚ → Prop where
  | nil (last : Option ℚ) : GateTrace last []
  | step (last : Option ℚ) (arrive stamp : ℚ) (rest : List ℚ)
      (harrive : ∀ t, last = some t → t ≤ arrive)
      (hstamp : arrive + rateLimitSleep last arrive ≤ stamp)
      (hrest : GateTrace (some stamp) rest) :
      GateTrace last (stamp :: rest)

/-- Decoded body of a data endpoint's response: not JSON, a JSON array of
device records, or some other JSON value (`isinstance(data, list)` fails). -/
inductive DataBody where
  | invalidJson : DataBody
  | jsonList (devs : List Device) : DataBody
  | jsonOther : DataBody
deriving DecidableEq, Repr

/-- One HTTP response as observed by `_rate_limited_request`: status code,
decoded body and the raw text used in error messages. -/
structure DataResponse where
  status : ℕ
  body : DataBody
  text : String := ""
deriving DecidableEq, Repr

/-- Result of the response handling in `_rate_limited_request`:
how many times the 401 branch re-authenticated, whether the request was
re-issued, the `Authorization` header attached to the re-issued request,
and the returned JSON or the raised `RaptApiError` message. -/
structure RequestResult where
  reauthCount : ℕ
  retried : Bool
  retryAuthHeader : Option String
  outcome : Except String DataBody
deriving DecidableEq, Repr

/-- Error raised for a non-200, non-401 first response (api.py lines
142-151): 403 → forbidden, 404 → not found, ≥500 → server error, otherwise
a generic request failure, each carrying the response text. -/
def statusErrorMsg (status : ℕ) (text : String) : String :=
  if status = 403 then "Access forbidden: " ++ text
  else if status = 404 then "API endpoint not found: " ++ text
  else if status ≥ 500 then "Server error: " ++ toString status ++ " - " ++ text
  else "Request failed: " ++ toString status ++ " - " ++ text

/-- Embedding of the response handling of `RaptApiClient._rate_limited_request`
(api.py lines 124-157).  `resp` is the response to the first issued request;
`retryResp` is the response the retry would observe, consulted only in the
401 branch; `newToken` is the bearer token produced by the re-authentication
in that branch.  On a 401 first response the code re-authenticates once,
attaches `Bearer <newToken>` and re-issues the request exactly once: a
non-200 retry response (a second 401 included) raises a `RaptApiError`
with no further retry; a 200 retry response is decoded as JSON. -/
def handleResponse (resp : DataResponse) (retryResp : DataResponse)
    (newToken : String) : RequestResult :=
  if resp.status = 401 then
    if retryResp.status ≠ 200 then
      { reauthCount := 1, retried := true,
        retryAuthHeader := some ("Bearer " ++ newToken),
        outcome := .error ("Request failed after re-auth: " ++
          toString retryResp.status ++ " - " ++ retryResp.text) }
    else
      match retryResp.body with
      | .invalidJson =>
        { reauthCount := 1, retried := true,
          retryAuthHeader := some ("Bearer " ++ newToken),
          outcome := .error "Invalid JSON response from API" }
      | b =>
        { reauthCount := 1, retried := true,
          retryAuthHeader := some ("Bearer " ++ newToken),
          outcome := .ok b }
  else if resp.status ≠ 200 then
    { reauthCount := 0, retried := false, retryAuthHeader := none,
      outcome := .error (statusErrorMsg resp.status resp.text) }
  else
    match resp.body with
    | .invalidJson =>
      { reauthCount := 0, retried := false, retryAuthHeader := none,
        outcome := .error "Invalid JSON response from API" }
    | b =>
      { reauthCount := 0, retried := false, retryAuthHeader := none,
        outcome := .ok b }

/-- Embedding of the shared body of the four category fetch methods
(`get_temperature_controllers`, api.py lines 163-179, and its three
copies): the decoded body of the rate-limited GET, when it is a JSON list,
is returned as is; any other decoded body yields `[]`; a raised
`RaptApiError` is re-raised unchanged (`except Exception: raise`). -/
def getCategory (result : Except String DataBody) : Except String (List Device) :=
  match result with
  | .error e => .error e
  | .ok (.jsonList devs) => .ok devs
  | .ok _ => .ok []

/-- The four category lists returned by `get_all_devices`. -/
structure AllDevices where
  controllers : List Device
  hydrometers : List Device
  fermentationChambers : List Device
  brewzillas : List Device
deriving DecidableEq, Repr

/-- Embedding of `RaptApiClient.get_all_devices` (api.py lines 255-267):
the four category fetches issued sequentially, each from its own
rate-limited request result; the first raised error aborts the sequence. -/
def getAllDevices (rc rh rf rb : Except String DataBody) :
    Except String AllDevices := do
  let controllers ← getCategory rc
  let hydrometers ← getCategory rh
  let fermentationChambers ← getCategory rf
  let brewzillas ← getCategory rb
  pure ⟨controllers, hydrometers, fermentationChambers, brewzillas⟩

/-- Mutable state of `RaptDataUpdateCoordinator` owned by the repository's
code: `_devices` and `_known_device_ids`. -/
structure CoordState where
  devices : List Device := []
  knownDeviceIds : Finset String := ∅
deriving DecidableEq

/-- The dictionary `_async_update_data` returns on success: the four
category lists, the merged device list, and the `last_updated` entry,
which the source fills with the coordinator's `last_update_success`
attribute — the boolean success flag of the previous completed refresh. -/
structure Snapshot where
  controllers : List Device
  hydrometers : List Device
  fermentationChambers : List Device
  brewzillas : List Device
  devices : List Device
  lastUpdated : Bool
deriving DecidableEq, Repr

/-- Embedding of `RaptDataUpdateCoordinator._track_known_devices`
(coordinator.py lines 104-109): add every truthy device id of the four
concatenated lists to the known-device set. -/
def trackKnownDevices (known : Finset String) (ds : List Device) : Finset String :=
  ds.foldl (fun k d => match truthyId d with | some i => insert i k | none => k) known

/-- Embedding of `RaptDataUpdateCoordinator._async_update_data`
(coordinator.py lines 33-61).  `fetch` is what `get_all_devices` produced
(its result or its raised `RaptApiError` message); `lastUpdateSuccess` is
the coordinator's `last_update_success` boolean at the time the snapshot
dictionary is built.  A raised error is caught before any state change and
re-raised as the `UpdateFailed` message; on success the known-device set
and the `_devices` list are updated and the snapshot returned. -/
def asyncUpdateData (st : CoordState) (lastUpdateSuccess : Bool)
    (fetch : Except String AllDevices) : CoordState × Except String Snapshot :=
  match fetch with
  | .error e => (st, .error ("Error communicating with RAPT API: " ++ e))
  | .ok all =>
    let merged := all.controllers ++ all.hydrometers ++
      all.fermentationChambers ++ all.brewzillas
    ({ devices := merged,
       knownDeviceIds := trackKnownDevices st.knownDeviceIds merged },
     .ok { controllers := all.controllers, hydrometers := all.hydrometers,
           fermentationChambers := all.fermentationChambers,
           brewzillas := all.brewzillas, devices := merged,
           lastUpdated := lastUpdateSuccess })

/-- One scheduled refresh as driven by the Home Assistant framework around
`_async_update_data`: the held snapshot `data` is replaced only when the
update returns without raising, and `last_update_success` becomes true on
success and false on failure. -/
def coordinatorRefresh (st : CoordState) (data : Option Snapshot)
    (lastUpdateSuccess : Bool) (fetch : Except String AllDevices) :
    CoordState × Option Snapshot × Bool :=
  match asyncUpdateData st lastUpdateSuccess fetch with
  | (st2, .ok snap) => (st2, some snap, true)
  | (st2, .error _) => (st2, data, false)

/-- The scan loop of `async_discover_devices` (coordinator.py lines 84-90):
walk the concatenated device records in order; a record whose id is truthy
and not yet known is appended to the new-device list and its id added to
the known set before the next record is examined. -/
def scanNew : List Device → Finset String → List Device × Finset String
  | [], known => ([], known)
  | d :: rest, known =>
    match truthyId d with
    | some i =>
      if i ∈ known then scanNew rest known
      else
        let r := scanNew rest (insert i known)
        (d :: r.1, r.2)
    | none => scanNew rest known

/-- Observable actions of one `async_discover_devices` run, in order. -/
inductive DiscoveryEvent where
  | callbackInvoked (cb : ℕ) (newDevices : List Device) : DiscoveryEvent
  | refreshRequested : DiscoveryEvent
deriving DecidableEq, Repr

/-- Embedding of `RaptDataUpdateCoordinator.async_discover_devices`
(coordinator.py lines 72-102).  `callbacks` labels the registered discovery
callbacks in registration order.  A raised fetch error is caught before any
state change: the known set is unchanged and nothing runs.  Otherwise the
scan collects the new devices; when some exist, each callback is awaited in
registration order with that list; finally an ordinary refresh is
requested.  The surrounding `try` swallows every error, so nothing
propagates to the caller. -/
def asyncDiscoverDevices (known : Finset String) (callbacks : List ℕ)
    (fetch : Except String AllDevices) : Finset String × List DiscoveryEvent :=
  match fetch with
  | .error _ => (known, [])
  | .ok all =>
    let ds := all.controllers ++ all.hydrometers ++
      all.fermentationChambers ++ all.brewzillas
    let r := scanNew ds known
    let callbackEvents :=
      if r.1.isEmpty then []
      else callbacks.map (fun cb => DiscoveryEvent.callbackInvoked cb r.1)
    (r.2, callbackEvents ++ [DiscoveryEvent.refreshRequested])

/-- Value of the decimal digits of `cs`, `none` when `cs` is empty or holds
a non-digit character. -/
def decDigits? (cs : List Char) : Option ℕ :=
  if cs.isEmpty then none
  else cs.foldl
    (fun acc c => match acc with
      | none => none
      | some n => if c.isDigit then some (10 * n + (c.toNat - 48)) else none)
    (some 0)

/-- Python `float()` on the plain decimal literals that occur as stringly
numeric sensor values: optional sign, integer digits, optional fractional
digits with at least one digit overall.  Exponents, `inf`/`nan`,
underscores and surrounding whitespace are outside the modelled value
space. -/
def pyFloat? (s : String) : Option ℚ :=
  let cs := s.toList
  let signed : ℚ × List Char :=
    match cs with
    | '-' :: r => (-1, r)
    | '+' :: r => (1, r)
    | r => (1, r)
  let intPart := signed.2.takeWhile (fun c => c ≠ '.')
  match signed.2.dropWhile (fun c => c ≠ '.') with
  | [] =>
    match decDigits? intPart with
    | some n => some (signed.1 * n)
    | none => none
  | _ :: frac =>
    match decDigits? intPart, decDigits? frac with
    | some n, some f =>
      some (signed.1 * ((n : ℚ) + (f : ℚ) / (10 : ℚ) ^ frac.length))
    | some n, none =>
      if frac.isEmpty then some (signed.1 * n) else none
    | none, some f =>
      if intPart.isEmpty then some (signed.1 * ((f : ℚ) / (10 : ℚ) ^ frac.length))
      else none
    | none, none => none

/-- Embedding of `RaptSensor._parse_value` (sensor.py lines 859-879): `None`
stays absent, booleans map to 100/0, numbers pass through, and strings are
parsed as a float, then as an int, then returned unchanged. -/
def parseValue : JVal → Option JVal
  | .null => none
  | .bool b => some (.num (if b then 100 else 0))
  | .num q => some (.num q)
  | .str s =>
    match pyFloat? s with
    | some q => some (.num q)
    | none =>
      match s.toInt? with
      | some n => some (.num (n : ℚ))
      | none => some (.str s)

/-- Direct key lookup on a device record dictionary: the reserved `id` key
holds the record's string id; every other scalar key lives in `fields`
(`telemetry` is kept apart as the non-scalar reserved key). -/
def dictGet (d : Device) (k : String) : Option JVal :=
  if k = "id" then d.id.map JVal.str else d.fields.lookup k

/-- Embedding of `RaptSensor.native_value` (sensor.py lines 827-857).  With
no held snapshot the value is `None`.  The record is searched in the
`controllers` list when the entity's device type is `TemperatureController`
and in the `hydrometers` list for every other device type; the first record
whose `id` equals the entity's device id is used.  With no match the value
is `None`.  Otherwise the sensor key is probed directly on the record, then
in the most recent telemetry sample. -/
def nativeValue (data : Option Snapshot) (deviceType deviceId sensorKey : String) :
    Option JVal :=
  match data with
  | none => none
  | some snap =>
    let devices :=
      if deviceType = "TemperatureController" then snap.controllers
      else snap.hydrometers
    match devices.find? (fun d => d.id == some deviceId) with
    | none => none
    | some device =>
      match dictGet device sensorKey with
      | some v => parseValue v
      | none =>
        match device.telemetry with
        | some (latest :: _) =>
          match latest.lookup sensorKey with
          | some v => parseValue v
          | none => none
        | _ => none

/-- Embedding of `RaptSensor.available` (sensor.py lines 881-884): the
entity is available iff the coordinator's last update succeeded and
`native_value` is not `None`. -/
def sensorAvailable (lastUpdateSuccess : Bool) (data : Option Snapshot)
    (deviceType deviceId sensorKey : String) : Bool :=
  lastUpdateSuccess && (nativeValue data deviceType deviceId sensorKey).isSome

/-- C6: `_ensure_authenticated` performs no authenticate call iff a bearer
token exists and the current time is strictly before its expiry instant;
otherwise (token or expiry absent, or `now >= expiry`) it performs exactly
one authenticate call. -/
theorem C6_ensure_authenticated_calls (s : ClientState) (now : ℚ) :
    (ensureAuthenticatedCalls s now = 0 ↔
      (s.bearerToken.isSome ∧ ∃ e, s.tokenExpiresAt = some e ∧ now < e)) ∧
    (¬ (s.bearerToken.isSome ∧ ∃ e, s.tokenExpiresAt = some e ∧ now < e) →
      ensureAuthenticatedCalls s now = 1) := by
  have hcases :
      ensureAuthenticatedCalls s now = 0 ↔
        (s.bearerToken.isSome ∧ ∃ e, s.tokenExpiresAt = some e ∧ now < e) := by
    cases hb : s.bearerToken <;> cases he : s.tokenExpiresAt <;>
      simp [ensureAuthenticatedCalls, needsAuth, hb, he, not_le]
  refine ⟨hcases, fun hnot => ?_⟩
  have h0 : ¬ ensureAuthenticatedCalls s now = 0 := fun h => hnot (hcases.mp h)
  unfold ensureAuthenticatedCalls at h0 ⊢
  by_cases h : needsAuth s now = true
  · simp [h]
  · simp [h] at h0

/-- Witness for C6 at the fresh client state: with no token stored, one
authenticate call is performed. -/
theorem C6_witness :
    ensureAuthenticatedCalls {} 0 = 1 :=
  (C6_ensure_authenticated_calls {} 0).2 (by simp)

/-- C7: a successful authenticate call stores the bearer token and the
expiry instant together, with the expiry equal to the authentication time
plus the response's `expires_in`, and equal to authentication time + 2700
seconds when `expires_in` is absent from the token response. -/
theorem C7_authenticate_success_stores_token_and_expiry (s : ClientState)
    (now : ℚ) (tok : String) (expiresIn : Option ℚ) (text : String) :
    authenticate s (.response 200 (.json (some tok) expiresIn) text) now =
      ({ bearerToken := some tok,
         tokenExpiresAt := some (now + expiresIn.getD 2700) }, .ok ()) ∧
    (∀ q, expiresIn = some q →
      (authenticate s (.response 200 (.json (some tok) expiresIn) text) now).1.tokenExpiresAt
        = some (now + q)) ∧
    (expiresIn = none →
      (authenticate s (.response 200 (.json (some tok) expiresIn) text) now).1.tokenExpiresAt
        = some (now + 2700)) := by
  refine ⟨rfl, ?_, ?_⟩
  · rintro q rfl
    rfl
  · rintro rfl
    rfl

/-- Witness for C7 with `expires_in` absent: the stored expiry is the
authentication time plus 2700 seconds, alongside the token. -/
theorem C7_witness :
    (authenticate {} (.response 200 (.json (some "tok") none) "") 10).1.tokenExpiresAt
      = some (10 + 2700) :=
  (C7_authenticate_success_stores_token_and_expiry {} 10 "tok" none "").2.2 rfl

/-- C8: `authenticate` raises on every non-200 response — an
invalid-credentials message for status 400 or 401 and a generic HTTP
failure message for any other non-200 status — and raises a
response-format error for a non-JSON body or a JSON body lacking
`access_token`; every such failure leaves the token/expiry state
unchanged, so a client that held no token still needs authentication
afterwards. -/
theorem C8_authenticate_failure_messages_and_state (s : ClientState)
    (now : ℚ) (text : String) :
    (∀ body, authenticate s (.response 400 body text) now =
      (s, .error "Authentication failed: Invalid username or API key")) ∧
    (∀ body, authenticate s (.response 401 body text) now =
      (s, .error "Authentication failed: Invalid username or API key")) ∧
    (∀ status, ∀ body, status ≠ 200 → status ≠ 400 → status ≠ 401 →
      authenticate s (.response status body text) now =
        (s, .error ("Authentication failed: HTTP " ++ toString status))) ∧
    (authenticate s (.response 200 .invalidJson text) now =
      (s, .error "Authentication failed: Invalid response format")) ∧
    (∀ expiresIn, authenticate s (.response 200 (.json none expiresIn) text) now =
      (s, .error "No access token received from API")) ∧
    (s.bearerToken = none → ∀ now2 : ℚ, needsAuth s now2 = true) := by
  refine ⟨fun body => rfl, fun body => rfl, ?_, rfl, fun expiresIn => rfl, ?_⟩
  · intro status body h200 h400 h401
    simp only [authenticate]
    rw [if_neg h400, if_neg h401, if_pos h200]
  · intro hb now2
    unfold needsAuth
    rw [hb]
    cases s.tokenExpiresAt <;> rfl

/-- Witness for C8: a 500 response raises the generic HTTP failure message
and leaves the fresh state needing authentication. -/
theorem C8_witness :
    authenticate {} (.response 500 .invalidJson "boom") 0 =
      ({}, .error "Authentication failed: HTTP 500") ∧ needsAuth {} 7 = true :=
  ⟨(C8_authenticate_failure_messages_and_state {} 0 "boom").2.2.1 500 .invalidJson
      (by decide) (by decide) (by decide),
    (C8_authenticate_failure_messages_and_state {} 0 "boom").2.2.2.2.2 rfl 7⟩

/-- C2: a 401 first response makes `_rate_limited_request` re-authenticate
exactly once and re-issue the request exactly once, with the refreshed
token in the `Authorization` header; any non-200 status on the retry
(a second 401 included) raises a `RaptApiError` with no further retry,
and a non-401 first response triggers neither re-authentication nor
retry. -/
theorem C2_single_reauth_and_retry_on_401 (resp retryResp : DataResponse)
    (newToken : String) (h401 : resp.status = 401) :
    (handleResponse resp retryResp newToken).reauthCount = 1 ∧
    (handleResponse resp retryResp newToken).retried = true ∧
    (handleResponse resp retryResp newToken).retryAuthHeader =
      some ("Bearer " ++ newToken) ∧
    (retryResp.status ≠ 200 →
      (handleResponse resp retryResp newToken).outcome =
        .error ("Request failed after re-auth: " ++ toString retryResp.status ++
          " - " ++ retryResp.text)) ∧
    (∀ resp2 : DataResponse, resp2.status ≠ 401 →
      (handleResponse resp2 retryResp newToken).reauthCount = 0 ∧
      (handleResponse resp2 retryResp newToken).retried = false) := by
  unfold handleResponse
  rw [if_pos h401]
  refine ⟨?_, ?_, ?_, ?_, ?_⟩
  · split
    · rfl
    · split <;> rfl
  · split
    · rfl
    · split <;> rfl
  · split
    · rfl
    · split <;> rfl
  · intro hne
    rw [if_pos hne]
  · intro resp2 hne
    rw [if_neg hne]
    split
    · exact ⟨rfl, rfl⟩
    · split <;> exact ⟨rfl, rfl⟩

/-- Witness for C2: a 401 first response followed by a second 401 on the
retry yields one re-authentication, one retry, and the raised request
error. -/
theorem C2_witness :
    (handleResponse ⟨401, .jsonOther, "x"⟩ ⟨401, .jsonOther, "denied"⟩ "t2").reauthCount = 1 ∧
    (handleResponse ⟨401, .jsonOther, "x"⟩ ⟨401, .jsonOther, "denied"⟩ "t2").outcome =
      .error "Request failed after re-auth: 401 - denied" :=
  ⟨(C2_single_reauth_and_retry_on_401 ⟨401, .jsonOther, "x"⟩ ⟨401, .jsonOther, "denied"⟩
      "t2" rfl).1,
    (C2_single_reauth_and_retry_on_401 ⟨401, .jsonOther, "x"⟩ ⟨401, .jsonOther, "denied"⟩
      "t2" rfl).2.2.2.1 (by decide)⟩

/-- Devices a decoded 200 body contributes: the list itself for a JSON
list, the defensive empty list for any other shape. -/
def bodyDevices : DataBody → List Device
  | .jsonList devs => devs
  | _ => []

/-- C4: a fetch whose decoded 200 body is not a list returns the empty
list rather than raising, and since `get_all_devices` issues the four
fetches sequentially, a non-list body for one category leaves the other
three categories' results intact. -/
theorem C4_nonlist_body_yields_empty_list (rc rh rf rb : Except String DataBody)
    (bc bh bf bb : DataBody) (hc : rc = .ok bc) (hh : rh = .ok bh)
    (hf : rf = .ok bf) (hb : rb = .ok bb) :
    (∀ b : DataBody, ∀ e : String, getCategory (.ok b) ≠ .error e) ∧
    (∀ b : DataBody, (∀ devs, b ≠ .jsonList devs) → getCategory (.ok b) = .ok []) ∧
    getAllDevices rc rh rf rb =
      .ok ⟨bodyDevices bc, bodyDevices bh, bodyDevices bf, bodyDevices bb⟩ := by
  subst hc hh hf hb
  refine ⟨?_, ?_, ?_⟩
  · intro b e
    cases b <;> simp [getCategory]
  · intro b hnl
    cases b with
    | jsonList devs => exact absurd rfl (hnl devs)
    | invalidJson => rfl
    | jsonOther => rfl
  · cases bc <;> cases bh <;> cases bf <;> cases bb <;> rfl

/-- Witness for C4: the hydrometers endpoint answering a non-list JSON body
yields an empty hydrometer list while the other three categories keep
their devices. -/
theorem C4_witness :
    getAllDevices (.ok (.jsonList [{ id := some "c1" }])) (.ok .jsonOther)
        (.ok (.jsonList [{ id := some "f1" }])) (.ok (.jsonList [])) =
      .ok ⟨[{ id := some "c1" }], [], [{ id := some "f1" }], []⟩ :=
  (C4_nonlist_body_yields_empty_list _ _ _ _ _ _ _ _ rfl rfl rfl rfl).2.2

/-- C3: when `get_all_devices` raises a client error, the refresh raises
the single distinguishable `UpdateFailed` message, the coordinator state
(device list and known-device set) and the held snapshot are left
completely unchanged, and `last_update_success` becomes false; the held
snapshot is replaced wholesale only on a successful poll. -/
theorem C3_failed_poll_preserves_snapshot (st : CoordState)
    (data : Option Snapshot) (lastUpdateSuccess : Bool) (e : String) :
    asyncUpdateData st lastUpdateSuccess (.error e) =
      (st, .error ("Error communicating with RAPT API: " ++ e)) ∧
    coordinatorRefresh st data lastUpdateSuccess (.error e) = (st, data, false) ∧
    (∀ all : AllDevices,
      coordinatorRefresh st data lastUpdateSuccess (.ok all) =
        ({ devices := all.controllers ++ all.hydrometers ++
             all.fermentationChambers ++ all.brewzillas,
           knownDeviceIds := trackKnownDevices st.knownDeviceIds
             (all.controllers ++ all.hydrometers ++
               all.fermentationChambers ++ all.brewzillas) },
         some { controllers := all.controllers, hydrometers := all.hydrometers,
                fermentationChambers := all.fermentationChambers,
                brewzillas := all.brewzillas,
                devices := all.controllers ++ all.hydrometers ++
                  all.fermentationChambers ++ all.brewzillas,
                lastUpdated := lastUpdateSuccess },
         true)) :=
  ⟨rfl, rfl, fun _ => rfl⟩

/-- C9: on a successful poll the snapshot's `last_updated` entry holds the
coordinator's `last_update_success` boolean from before the poll — the
success flag of the previous completed refresh — not a timestamp of when
this poll succeeded.  In particular the first successful poll after a
failure carries `last_updated := false`. -/
theorem C9_last_updated_is_prior_success_flag (st : CoordState)
    (all : AllDevices) (b : Bool) :
    ∃ snap : Snapshot, (asyncUpdateData st b (.ok all)).2 = .ok snap ∧
      snap.lastUpdated = b :=
  ⟨_, rfl, rfl⟩

/-- One gate execution stamps at least 15 seconds after the previously
recorded stamp: either the elapsed time was short and the computed sleep
tops it up to exactly the window, or 15 seconds had already passed. -/
theorem gate_step_gap (t arrive stamp : ℚ) (_h1 : t ≤ arrive)
    (h2 : arrive + rateLimitSleep (some t) arrive ≤ stamp) : t + 15 ≤ stamp := by
  simp only [rateLimitSleep] at h2
  split at h2 <;> linarith

/-- C1: along any serialized trace of rate-gate executions, every pair of
successive request start times (the stamped `_last_request_time` values)
is at least 15 seconds apart, and the first stamp is at least 15 seconds
after any previously recorded one; the lock is held across the computed
sleep, the stamp, authentication and the request, so the gate sections
form such a serialized trace and two concurrent callers can never both
pass the spacing check. -/
theorem C1_rate_gate_min_spacing (last : Option ℚ) (stamps : List ℚ)
    (h : GateTrace last stamps) :
    List.Chain' (fun a b => a + 15 ≤ b) stamps ∧
    (∀ t, last = some t → ∀ s0 ∈ stamps.head?, t + 15 ≤ s0) := by
  induction h with
  | nil last => exact ⟨List.chain'_nil, fun t _ s0 hs0 => by simp at hs0⟩
  | step last arrive stamp rest harrive hstamp hrest ih =>
    refine ⟨List.chain'_cons'.mpr ⟨fun b hb => ih.2 stamp rfl b hb, ih.1⟩, ?_⟩
    intro t hlast s0 hs0
    have hs : stamp = s0 := by simpa using hs0
    subst hs
    rw [hlast] at hstamp
    exact gate_step_gap t arrive stamp (harrive t hlast) hstamp

/-- Witness for C1: a fresh client issues a request stamped at time 0 and a
second one arriving 3 seconds later; the gate sleeps 12 seconds and the
second stamp lands at time 15, so the successive stamps are 15 apart. -/
theorem C1_witness : List.Chain' (fun a b : ℚ => a + 15 ≤ b) [0, 15] :=
  (C1_rate_gate_min_spacing none [0, 15]
    (GateTrace.step none 0 0 [15]
      (fun t ht => by cases ht)
      (by norm_num [rateLimitSleep])
      (GateTrace.step (some 0) 3 15 []
        (fun t ht => by cases ht; norm_num)
        (by norm_num [rateLimitSleep])
        (GateTrace.nil (some 15))))).1

/-- The concatenation, in source order, of the four category lists. -/
def mergedDevices (all : AllDevices) : List Device :=
  all.controllers ++ all.hydrometers ++ all.fermentationChambers ++ all.brewzillas

/-- Every device the scan collects comes from the fetched records and
carries a truthy (non-empty) id that was not yet known when the scan
started. -/
theorem scanNew_sound (ds : List Device) : ∀ known : Finset String,
    ∀ d ∈ (scanNew ds known).1, d ∈ ds ∧ ∃ i, truthyId d = some i ∧ i ∉ known := by
  induction ds with
  | nil => intro known d hd; simp [scanNew] at hd
  | cons a rest ih =>
    intro known d hd
    cases hta : truthyId a with
    | none =>
      simp only [scanNew, hta] at hd
      have h := ih known d hd
      exact ⟨List.mem_cons_of_mem _ h.1, h.2⟩
    | some i =>
      by_cases hik : i ∈ known
      · simp only [scanNew, hta, if_pos hik] at hd
        have h := ih known d hd
        exact ⟨List.mem_cons_of_mem _ h.1, h.2⟩
      · simp only [scanNew, hta, if_neg hik] at hd
        rcases List.mem_cons.mp hd with rfl | hd2
        · exact ⟨List.mem_cons_self _ _, i, hta, hik⟩
        · have h := ih (insert i known) d hd2
          obtain ⟨j, hj1, hj2⟩ := h.2
          exact ⟨List.mem_cons_of_mem _ h.1, j, hj1,
            fun hjk => hj2 (Finset.mem_insert_of_mem hjk)⟩

/-- After the scan, the known set holds exactly the old known ids together
with every truthy id among the scanned records. -/
theorem scanNew_known (ds : List Device) : ∀ known : Finset String,
    (scanNew ds known).2 = known ∪ (ds.filterMap truthyId).toFinset := by
  induction ds with
  | nil => intro known; simp [scanNew]
  | cons a rest ih =>
    intro known
    cases hta : truthyId a with
    | none =>
      simp only [scanNew, hta, List.filterMap_cons]
      exact ih known
    | some i =>
      by_cases hik : i ∈ known
      · simp only [scanNew, hta, if_pos hik, List.filterMap_cons]
        rw [ih known]
        ext x
        simp only [Finset.mem_union, List.mem_toFinset, List.mem_cons]
        constructor
        · rintro (hx | hx)
          · exact Or.inl hx
          · exact Or.inr (Or.inr hx)
        · rintro (hx | rfl | hx)
          · exact Or.inl hx
          · exact Or.inl hik
          · exact Or.inr hx
      · simp only [scanNew, hta, if_neg hik, List.filterMap_cons]
        rw [ih (insert i known)]
        ext x
        simp only [Finset.mem_union, Finset.mem_insert, List.mem_toFinset,
          List.mem_cons]
        tauto

/-- After the scan, the known set holds exactly the old known ids together
with the ids of the collected new devices. -/
theorem scanNew_new_ids (ds : List Device) : ∀ known : Finset String,
    (scanNew ds known).2 =
      known ∪ ((scanNew ds known).1.filterMap truthyId).toFinset := by
  induction ds with
  | nil => intro known; simp [scanNew]
  | cons a rest ih =>
    intro known
    cases hta : truthyId a with
    | none =>
      simp only [scanNew, hta]
      exact ih known
    | some i =>
      by_cases hik : i ∈ known
      · simp only [scanNew, hta, if_pos hik]
        exact ih known
      · simp only [scanNew, hta, if_neg hik, List.filterMap_cons]
        rw [ih (insert i known)]
        ext x
        simp only [Finset.mem_union, Finset.mem_insert, List.mem_toFinset,
          List.mem_cons]
        tauto

/-- C5 (amended): on a manual discovery run whose fetch succeeds, the
collected new devices are fetched records carrying a truthy (non-empty)
id not yet known; at the id level the collected ids are exactly the
truthy fetched ids outside the known set; the known set gains exactly the
collected ids; when the collection is non-empty every registered callback
is invoked exactly once with it, in registration order, before the
ordinary refresh is requested, and when it is empty no callback fires; a
fetch error is swallowed with the known set unchanged and no events. -/
theorem C5_manual_discovery (known : Finset String) (callbacks : List ℕ)
    (all : AllDevices) :
    (asyncDiscoverDevices known callbacks (.ok all)).1 =
      known ∪ ((scanNew (mergedDevices all) known).1.filterMap truthyId).toFinset ∧
    ((scanNew (mergedDevices all) known).1.filterMap truthyId).toFinset =
      ((mergedDevices all).filterMap truthyId).toFinset \ known ∧
    (∀ d ∈ (scanNew (mergedDevices all) known).1,
      d ∈ mergedDevices all ∧ ∃ i, truthyId d = some i ∧ i ∉ known) ∧
    (asyncDiscoverDevices known callbacks (.ok all)).2 =
      (if (scanNew (mergedDevices all) known).1.isEmpty then []
       else callbacks.map
         (fun cb => DiscoveryEvent.callbackInvoked cb
           (scanNew (mergedDevices all) known).1)) ++
        [DiscoveryEvent.refreshRequested] ∧
    (∀ e, asyncDiscoverDevices known callbacks (.error e) = (known, [])) := by
  have h1 := scanNew_known (mergedDevices all) known
  have h2 := scanNew_new_ids (mergedDevices all) known
  have hsound := scanNew_sound (mergedDevices all) known
  refine ⟨?_, ?_, hsound, rfl, fun e => rfl⟩
  · exact h2
  · ext x
    simp only [Finset.mem_sdiff, List.mem_toFinset, List.mem_filterMap]
    constructor
    · rintro ⟨d, hd, hdx⟩
      obtain ⟨hds, i, hi, hik⟩ := hsound d hd
      rw [hi] at hdx
      cases hdx
      exact ⟨⟨d, hds, hi⟩, hik⟩
    · rintro ⟨⟨d, hds, hdx⟩, hxk⟩
      have hx2 : x ∈ known ∪ ((scanNew (mergedDevices all) known).1.filterMap truthyId).toFinset := by
        rw [← h2, h1]
        exact Finset.mem_union_right _ (List.mem_toFinset.mpr
          (List.mem_filterMap.mpr ⟨d, hds, hdx⟩))
      rcases Finset.mem_union.mp hx2 with hx3 | hx3
      · exact absurd hx3 hxk
      · exact List.mem_filterMap.mp (List.mem_toFinset.mp hx3)

/-- Counterexample to C5 as stated: a fetched record with the id key
present but empty carries an id that is not in the (empty) known-device
set, yet the scan does not collect it — no callback fires and the known
set stays empty. -/
theorem C5_counterexample :
    (Device.mk (some "") [] none).id.isSome = true ∧
    "" ∉ (∅ : Finset String) ∧
    asyncDiscoverDevices ∅ [0]
        (.ok ⟨[Device.mk (some "") [] none], [], [], []⟩) =
      (∅, [DiscoveryEvent.refreshRequested]) := by
  refine ⟨rfl, by simp, rfl⟩

/-- Witness for C5: with known set `{A, B}` and a fetch returning records
`A`, `B`, `C`, the record `C` is collected and indeed carries a truthy id
outside the known set. -/
theorem C5_witness :
    (Device.mk (some "C") [] none) ∈
      mergedDevices ⟨[Device.mk (some "A") [] none, Device.mk (some "B") [] none,
        Device.mk (some "C") [] none], [], [], []⟩ ∧
    ∃ i, truthyId (Device.mk (some "C") [] none) = some i ∧
      i ∉ ({"A", "B"} : Finset String) :=
  (C5_manual_discovery {"A", "B"} [0]
      ⟨[Device.mk (some "A") [] none, Device.mk (some "B") [] none,
        Device.mk (some "C") [] none], [], [], []⟩).2.2.1
    (Device.mk (some "C") [] none) (by decide)

/-- C10: a sensor entity whose device type is `FermentationChamber` or
`BrewZilla` searches for its device record only in the snapshot's
hydrometers list (only `TemperatureController` entities search the
controllers list); so whenever no hydrometer record shares the entity's
device id, `native_value` is `None` and the entity reports unavailable,
even though a record with that id is present in the snapshot's
fermentation-chambers or brewzillas list. -/
theorem C10_non_controller_searches_hydrometers (snap : Snapshot)
    (deviceType deviceId sensorKey : String)
    (hdt : deviceType = "FermentationChamber" ∨ deviceType = "BrewZilla")
    (_hpresent : ∃ d ∈ snap.fermentationChambers ++ snap.brewzillas,
      d.id = some deviceId)
    (hno : ∀ d ∈ snap.hydrometers, d.id ≠ some deviceId) :
    nativeValue (some snap) deviceType deviceId sensorKey = none ∧
    sensorAvailable true (some snap) deviceType deviceId sensorKey = false := by
  have hne : deviceType ≠ "TemperatureController" := by
    rcases hdt with rfl | rfl <;> decide
  have hfind : snap.hydrometers.find? (fun d => d.id == some deviceId) = none := by
    rw [List.find?_eq_none]
    intro d hd
    simpa using hno d hd
  have hnv : nativeValue (some snap) deviceType deviceId sensorKey = none := by
    simp only [nativeValue, if_neg hne, hfind]
  exact ⟨hnv, by simp [sensorAvailable, hnv]⟩

/-- Witness for C10: a fermentation chamber record with id `f1` present in
the snapshot's fermentation-chambers list but absent from the hydrometers
list yields `native_value = None` and an unavailable entity. -/
theorem C10_witness :
    nativeValue
        (some { controllers := [], hydrometers := [Device.mk (some "h1") [] none],
                fermentationChambers := [Device.mk (some "f1")
                  [("temperature", JVal.num 20)] none],
                brewzillas := [], devices := [], lastUpdated := true })
        "FermentationChamber" "f1" "temperature" = none ∧
    sensorAvailable true
        (some { controllers := [], hydrometers := [Device.mk (some "h1") [] none],
                fermentationChambers := [Device.mk (some "f1")
                  [("temperature", JVal.num 20)] none],
                brewzillas := [], devices := [], lastUpdated := true })
        "FermentationChamber" "f1" "temperature" = false :=
  C10_non_controller_searches_hydrometers
    { controllers := [], hydrometers := [Device.mk (some "h1") [] none],
      fermentationChambers := [Device.mk (some "f1")
        [("temperature", JVal.num 20)] none],
      brewzillas := [], devices := [], lastUpdated := true }
    "FermentationChamber" "f1" "temperature" (Or.inl rfl)
    ⟨Device.mk (some "f1") [("temperature", JVal.num 20)] none, by decide, rfl⟩
    (by decide)

end Rapt
